import Mathlib

/-!
Verification of the two declaration files of this repository:
`vendor/winapi/src/um/d2d1effects_2.rs` (seventeen `DEFINE_GUID!` constants
for Direct2D effect classes) and
`vendor/web-sys/src/features/gen_GpuComputePipeline.rs` (the wasm-bindgen
extern declarations for the `GpuComputePipeline` browser handle).

Both files are pure declaration tables, so the embedding represents them as
concrete Lean data: a `GUID` record per constant, and an `ExternDecl` record
per binding declaration, transcribed literal-for-literal from the source.
-/

/-! ## GUID data model (winapi `GUID` struct: u32, u16, u16, [u8; 8]) -/

/-- A 128-bit GUID as laid out by the winapi `GUID` struct: a 32-bit field,
two 16-bit fields and eight bytes.  Machine integers are modelled as `Nat`;
the literals in the source all fit their field widths (claim C9), so no
reduction modulo 2^w is needed to mirror the source values. -/
structure GUID where
  Data1 : Nat
  Data2 : Nat
  Data3 : Nat
  Data4 : List Nat
deriving DecidableEq, Repr

/-- The `DEFINE_GUID!` macro of winapi: it builds a `GUID` constant from
eleven integer literals (one u32, two u16, eight u8). -/
def DEFINE_GUID (l1 l2 l3 b0 b1 b2 b3 b4 b5 b6 b7 : Nat) : GUID :=
  ⟨l1, l2, l3, [b0, b1, b2, b3, b4, b5, b6, b7]⟩

/-- The 128-bit value of a GUID, packing the fields big-endian in field
order (Data1, Data2, Data3, then the eight Data4 bytes). -/
def bytesVal (bs : List Nat) : Nat :=
  bs.foldl (fun acc b => acc * 256 + b) 0

/-- The full 128-bit numeric value of a GUID. -/
def guidVal (g : GUID) : Nat :=
  ((g.Data1 * 2 ^ 16 + g.Data2) * 2 ^ 16 + g.Data3) * 2 ^ 64 + bytesVal g.Data4

/-- Little-endian byte decomposition of a value into `k` bytes. -/
def leBytes (k : Nat) (v : Nat) : List Nat :=
  match k with
  | 0 => []
  | k + 1 => v % 256 :: leBytes k (v / 256)

/-- The 16 in-memory bytes of a GUID on a little-endian platform
(Data1, Data2, Data3 little-endian, then Data4 verbatim). -/
def guidBytes (g : GUID) : List Nat :=
  leBytes 4 g.Data1 ++ leBytes 2 g.Data2 ++ leBytes 2 g.Data3 ++ g.Data4

/-- A GUID is well formed when each field value fits its declared width. -/
def wellFormedGUID (g : GUID) : Bool :=
  decide (g.Data1 < 2 ^ 32) && decide (g.Data2 < 2 ^ 16) &&
  decide (g.Data3 < 2 ^ 16) && (g.Data4.length == 8) &&
  g.Data4.all (fun b => decide (b < 2 ^ 8))

/-! ## The seventeen constants of `d2d1effects_2.rs`, literal for literal -/

def CLSID_D2D1Contrast : GUID :=
  DEFINE_GUID 0xb648a78a 0x0ed5 0x4f80 0xa9 0x4a 0x8e 0x82 0x5a 0xca 0x6b 0x77

def CLSID_D2D1RgbToHue : GUID :=
  DEFINE_GUID 0x23f3e5ec 0x91e8 0x4d3d 0xad 0x0a 0xaf 0xad 0xc1 0x00 0x4a 0xa1

def CLSID_D2D1HueToRgb : GUID :=
  DEFINE_GUID 0x7b78a6bd 0x0141 0x4def 0x8a 0x52 0x63 0x56 0xee 0x0c 0xbd 0xd5

def CLSID_D2D1ChromaKey : GUID :=
  DEFINE_GUID 0x74c01f5b 0x2a0d 0x408c 0x88 0xe2 0xc7 0xa3 0xc7 0x19 0x77 0x42

def CLSID_D2D1Emboss : GUID :=
  DEFINE_GUID 0xb1c5eb2b 0x0348 0x43f0 0x81 0x07 0x49 0x57 0xca 0xcb 0xa2 0xae

def CLSID_D2D1Exposure : GUID :=
  DEFINE_GUID 0xb56c8cfa 0xf634 0x41ee 0xbe 0xe0 0xff 0xa6 0x17 0x10 0x60 0x04

def CLSID_D2D1Grayscale : GUID :=
  DEFINE_GUID 0x36dde0eb 0x3725 0x42e0 0x83 0x6d 0x52 0xfb 0x20 0xae 0xe6 0x44

def CLSID_D2D1Invert : GUID :=
  DEFINE_GUID 0xe0c3784d 0xcb39 0x4e84 0xb6 0xfd 0x6b 0x72 0xf0 0x81 0x02 0x63

def CLSID_D2D1Posterize : GUID :=
  DEFINE_GUID 0x2188945e 0x33a3 0x4366 0xb7 0xbc 0x08 0x6b 0xd0 0x2d 0x08 0x84

def CLSID_D2D1Sepia : GUID :=
  DEFINE_GUID 0x3a1af410 0x5f1d 0x4dbe 0x84 0xdf 0x91 0x5d 0xa7 0x9b 0x71 0x53

def CLSID_D2D1Sharpen : GUID :=
  DEFINE_GUID 0xc9b887cb 0xc5ff 0x4dc5 0x97 0x79 0x27 0x3d 0xcf 0x41 0x7c 0x7d

def CLSID_D2D1Straighten : GUID :=
  DEFINE_GUID 0x4da47b12 0x79a3 0x4fb0 0x82 0x37 0xbb 0xc3 0xb2 0xa4 0xde 0x08

def CLSID_D2D1TemperatureTint : GUID :=
  DEFINE_GUID 0x89176087 0x8af9 0x4a08 0xae 0xb1 0x89 0x5f 0x38 0xdb 0x17 0x66

def CLSID_D2D1Vignette : GUID :=
  DEFINE_GUID 0xc00c40be 0x5e67 0x4ca3 0x95 0xb4 0xf4 0xb0 0x2c 0x11 0x51 0x35

def CLSID_D2D1EdgeDetection : GUID :=
  DEFINE_GUID 0xeff583ca 0xcb07 0x4aa9 0xac 0x5d 0x2c 0xc4 0x4c 0x76 0x46 0x0f

def CLSID_D2D1HighlightsShadows : GUID :=
  DEFINE_GUID 0xcadc8384 0x323f 0x4c7e 0xa3 0x61 0x2e 0x2b 0x24 0xdf 0x6e 0xe4

def CLSID_D2D1LookupTable3D : GUID :=
  DEFINE_GUID 0x349e0eda 0x0088 0x4a79 0x9c 0xa3 0xc7 0xe3 0x00 0x20 0x20 0x20

/-- The whole constant table of `d2d1effects_2.rs`, in file order. -/
def d2d1Table : List (String × GUID) :=
  [("CLSID_D2D1Contrast", CLSID_D2D1Contrast),
   ("CLSID_D2D1RgbToHue", CLSID_D2D1RgbToHue),
   ("CLSID_D2D1HueToRgb", CLSID_D2D1HueToRgb),
   ("CLSID_D2D1ChromaKey", CLSID_D2D1ChromaKey),
   ("CLSID_D2D1Emboss", CLSID_D2D1Emboss),
   ("CLSID_D2D1Exposure", CLSID_D2D1Exposure),
   ("CLSID_D2D1Grayscale", CLSID_D2D1Grayscale),
   ("CLSID_D2D1Invert", CLSID_D2D1Invert),
   ("CLSID_D2D1Posterize", CLSID_D2D1Posterize),
   ("CLSID_D2D1Sepia", CLSID_D2D1Sepia),
   ("CLSID_D2D1Sharpen", CLSID_D2D1Sharpen),
   ("CLSID_D2D1Straighten", CLSID_D2D1Straighten),
   ("CLSID_D2D1TemperatureTint", CLSID_D2D1TemperatureTint),
   ("CLSID_D2D1Vignette", CLSID_D2D1Vignette),
   ("CLSID_D2D1EdgeDetection", CLSID_D2D1EdgeDetection),
   ("CLSID_D2D1HighlightsShadows", CLSID_D2D1HighlightsShadows),
   ("CLSID_D2D1LookupTable3D", CLSID_D2D1LookupTable3D)]

/-- Looking up a declared CLSID constant by its Rust name. -/
def lookupCLSID (n : String) : Option GUID :=
  d2d1Table.lookup n

/-! ## Parsing the published GUID string format -/

/-- Value of one hexadecimal digit character, if it is one, read off the
code point: decimal digits occupy 48-57, uppercase A-F occupy 65-70 and
lowercase a-f occupy 97-102. -/
def hexVal (c : Char) : Option Nat :=
  let n := c.toNat
  if 48 ≤ n ∧ n ≤ 57 then some (n - 48)
  else if 65 ≤ n ∧ n ≤ 70 then some (n - 55)
  else if 97 ≤ n ∧ n ≤ 102 then some (n - 87)
  else none

/-- Accumulating value of a list of hexadecimal digit characters. -/
def hexAccum : List Char → Nat → Option Nat
  | [], acc => some acc
  | c :: cs, acc =>
    match hexVal c with
    | some v => hexAccum cs (acc * 16 + v)
    | none => none

/-- Reads consecutive pairs of hexadecimal digits as a byte list. -/
def hexPairBytes : List Char → Option (List Nat)
  | [] => some []
  | c1 :: c2 :: rest =>
    match hexAccum [c1, c2] 0, hexPairBytes rest with
    | some b, some bs => some (b :: bs)
    | _, _ => none
  | _ :: [] => none

/-- Splits a character list at each dash. -/
def splitDash : List Char → List (List Char)
  | [] => [[]]
  | c :: cs =>
    let r := splitDash cs
    if c = '-' then [] :: r
    else
      match r with
      | g :: gs => (c :: g) :: gs
      | [] => [[c]]

/-- Parses the canonical 8-4-4-4-12 GUID string form
(for example A94A-8E82... without surrounding punctuation) into a `GUID`:
the first three groups are the three integer fields and the last two groups
are the eight `Data4` bytes. -/
def parseGuidText (s : String) : Option GUID :=
  match splitDash s.data with
  | [g1, g2, g3, g4, g5] =>
    if g1.length = 8 ∧ g2.length = 4 ∧ g3.length = 4 ∧
       g4.length = 4 ∧ g5.length = 12 then
      match hexAccum g1 0, hexAccum g2 0, hexAccum g3 0,
            hexPairBytes (g4 ++ g5) with
      | some d1, some d2, some d3, some bs => some ⟨d1, d2, d3, bs⟩
      | _, _, _, _ => none
    else none
  | _ => none

/-- Modelled from the spec: the platform's registered CLSID value for each
named effect class.  The registry itself is external to the repository (the
spec sentence is that each declared constant "matches its published
platform value bit-for-bit"), so it is embedded here as the published
registration strings of the seventeen effect classes of `d2d1effects_2.h`,
written independently of the Rust literals and compared with them through
`parseGuidText`. -/
def platformRegistry : List (String × String) :=
  [("CLSID_D2D1Contrast", "B648A78A-0ED5-4F80-A94A-8E825ACA6B77"),
   ("CLSID_D2D1RgbToHue", "23F3E5EC-91E8-4D3D-AD0A-AFADC1004AA1"),
   ("CLSID_D2D1HueToRgb", "7B78A6BD-0141-4DEF-8A52-6356EE0CBDD5"),
   ("CLSID_D2D1ChromaKey", "74C01F5B-2A0D-408C-88E2-C7A3C7197742"),
   ("CLSID_D2D1Emboss", "B1C5EB2B-0348-43F0-8107-4957CACBA2AE"),
   ("CLSID_D2D1Exposure", "B56C8CFA-F634-41EE-BEE0-FFA617106004"),
   ("CLSID_D2D1Grayscale", "36DDE0EB-3725-42E0-836D-52FB20AEE644"),
   ("CLSID_D2D1Invert", "E0C3784D-CB39-4E84-B6FD-6B72F0810263"),
   ("CLSID_D2D1Posterize", "2188945E-33A3-4366-B7BC-086BD02D0884"),
   ("CLSID_D2D1Sepia", "3A1AF410-5F1D-4DBE-84DF-915DA79B7153"),
   ("CLSID_D2D1Sharpen", "C9B887CB-C5FF-4DC5-9779-273DCF417C7D"),
   ("CLSID_D2D1Straighten", "4DA47B12-79A3-4FB0-8237-BBC3B2A4DE08"),
   ("CLSID_D2D1TemperatureTint", "89176087-8AF9-4A08-AEB1-895F38DB1766"),
   ("CLSID_D2D1Vignette", "C00C40BE-5E67-4CA3-95B4-F4B02C115135"),
   ("CLSID_D2D1EdgeDetection", "EFF583CA-CB07-4AA9-AC5D-2CC44C76460F"),
   ("CLSID_D2D1HighlightsShadows", "CADC8384-323F-4C7E-A361-2E2B24DF6EE4"),
   ("CLSID_D2D1LookupTable3D", "349E0EDA-0088-4A79-9CA3-C7E300202020")]

/-- One registry row matches the declared table when the declared constant
of that name exists and parses of the published string agree with it on the
full 128-bit value. -/
def registryRowMatches (p : String × String) : Bool :=
  match lookupCLSID p.1, parseGuidText p.2 with
  | some g, some pg => guidVal g == guidVal pg
  | _, _ => false

/-! ## The wasm-bindgen declaration surface of `gen_GpuComputePipeline.rs` -/

/-- Rust-side types appearing in the binding signatures.  `optionOf` and
`resultOf` are included so that the absence of fallible wrappers in the
declared signatures is a checkable fact rather than a vacuity. -/
inductive RustTy
  | refHandle (tyName : String)
  | handle (tyName : String)
  | u32
  | rustString
  | strRef
  | unit
  | optionOf (t : RustTy)
  | resultOf (t : RustTy) (e : RustTy)
deriving DecidableEq, Repr

/-- The kind of a declaration inside the extern block. -/
inductive DeclKind
  | typeDecl
  | getter
  | setter
  | method
deriving DecidableEq, Repr

/-- One declaration of the wasm-bindgen extern block: its Rust name, kind,
JS class and JS name, argument and return types, the conditional
compilation gates over it, the derive list and the extends clause (both
only populated on the type declaration), and whether the binding carries
the structural attribute. -/
structure ExternDecl where
  name : String
  kind : DeclKind
  jsClass : String
  jsName : String
  args : List RustTy
  ret : RustTy
  cfgUnstableApis : Bool
  cfgFeatures : List String
  derivesList : List String
  extendsJs : Option String
  isStructural : Bool
deriving DecidableEq, Repr

/-- The `pub type GpuComputePipeline` declaration: gated by the block-level
web_sys_unstable_apis cfg, extends ::js_sys::Object, derives Debug, Clone,
PartialEq and Eq. -/
def gpuComputePipelineTypeDecl : ExternDecl :=
  { name := "GpuComputePipeline", kind := DeclKind.typeDecl,
    jsClass := "GPUComputePipeline", jsName := "GPUComputePipeline",
    args := [], ret := RustTy.handle "GpuComputePipeline",
    cfgUnstableApis := true, cfgFeatures := [],
    derivesList := ["Debug", "Clone", "PartialEq", "Eq"],
    extendsJs := some "::js_sys::Object", isStructural := false }

/-- The `pub fn label(this: &GpuComputePipeline) -> String` getter. -/
def labelGetterDecl : ExternDecl :=
  { name := "label", kind := DeclKind.getter,
    jsClass := "GPUComputePipeline", jsName := "label",
    args := [RustTy.refHandle "GpuComputePipeline"], ret := RustTy.rustString,
    cfgUnstableApis := true, cfgFeatures := [],
    derivesList := [], extendsJs := none, isStructural := true }

/-- The `pub fn set_label(this: &GpuComputePipeline, value: &str)`
setter. -/
def setLabelDecl : ExternDecl :=
  { name := "set_label", kind := DeclKind.setter,
    jsClass := "GPUComputePipeline", jsName := "label",
    args := [RustTy.refHandle "GpuComputePipeline", RustTy.strRef],
    ret := RustTy.unit,
    cfgUnstableApis := true, cfgFeatures := [],
    derivesList := [], extendsJs := none, isStructural := true }

/-- The `pub fn get_bind_group_layout(this: &GpuComputePipeline, index:
u32) -> GpuBindGroupLayout` method, additionally gated by the
GpuBindGroupLayout crate feature. -/
def getBindGroupLayoutDecl : ExternDecl :=
  { name := "get_bind_group_layout", kind := DeclKind.method,
    jsClass := "GPUComputePipeline", jsName := "getBindGroupLayout",
    args := [RustTy.refHandle "GpuComputePipeline", RustTy.u32],
    ret := RustTy.handle "GpuBindGroupLayout",
    cfgUnstableApis := true, cfgFeatures := ["GpuBindGroupLayout"],
    derivesList := [], extendsJs := none, isStructural := true }

/-- All declarations of `gen_GpuComputePipeline.rs`, in file order. -/
def gpuComputePipelineDecls : List ExternDecl :=
  [gpuComputePipelineTypeDecl, labelGetterDecl, setLabelDecl,
   getBindGroupLayoutDecl]

/-- Whether a declaration is compiled and usable under a given build
configuration: the unstable-APIs cfg flag must be on when the declaration
is gated by it, and every crate feature the declaration is gated by must be
activated. -/
def availableUnder (unstableCfg : Bool) (features : List String)
    (d : ExternDecl) : Bool :=
  ((!d.cfgUnstableApis) || unstableCfg) &&
  d.cfgFeatures.all (fun f => features.contains f)

/-- Whether a Rust type is a local fallibility wrapper (Option or
Result). -/
def fallibleTy : RustTy → Bool
  | RustTy.optionOf _ => true
  | RustTy.resultOf _ _ => true
  | _ => false

/-- The call semantics of a structural wasm-bindgen binding: the
declaration layer forwards the call to the external engine unchanged, with
no local branch, precondition check or result wrapping; the engine alone
determines the outcome. -/
def callBinding (engine : String → List Nat → Nat) (d : ExternDecl)
    (argVals : List Nat) : Nat :=
  engine d.jsName argVals

/-- Reading a declared CLSID constant in a program state: the constant
table is immutable static data, so a read returns the looked-up value and
leaves the state untouched (the source file contains no statement that
could mutate anything). -/
def readCLSID {σ : Type} (s : σ) (n : String) : Option GUID × σ :=
  (lookupCLSID n, s)

/-- Reading the binding declaration table in a program state: likewise a
pure read of static data. -/
def readBindingDecls {σ : Type} (s : σ) : List ExternDecl × σ :=
  (gpuComputePipelineDecls, s)

/-- The repository as the pair of its two declaration files. -/
structure Repo where
  guidFile : List (String × GUID)
  websysFile : List ExternDecl

/-- Assembling the repository from its two files; each file is written
independently of the other. -/
def mkRepo (g : List (String × GUID)) (w : List ExternDecl) : Repo :=
  ⟨g, w⟩

/-- The GUID constants the assembled repository exposes. -/
def Repo.guidView (r : Repo) : List (String × GUID) :=
  r.guidFile

/-- The binding signatures the assembled repository exposes. -/
def Repo.bindingView (r : Repo) : List ExternDecl :=
  r.websysFile

/-- The external type names one Rust type mentions. -/
def referencedTyNames : RustTy → List String
  | RustTy.refHandle n => [n]
  | RustTy.handle n => [n]
  | RustTy.optionOf t => referencedTyNames t
  | RustTy.resultOf t e => referencedTyNames t ++ referencedTyNames e
  | _ => []

/-- Every name a binding declaration references: argument types, return
type and the extends clause. -/
def declReferencedNames (d : ExternDecl) : List String :=
  (d.args.map referencedTyNames).flatten ++ referencedTyNames d.ret ++
  (match d.extendsJs with | some n => [n] | none => [])

/-- The Rust names of the seventeen GUID constants. -/
def guidConstNames : List String :=
  d2d1Table.map (fun p => p.1)

/-- The runtime value of a GpuComputePipeline handle: the wasm-bindgen
type wraps a JS object reference, modelled as the reference index. -/
structure GpuComputePipeline where
  jsRef : Nat
deriving Repr

/-- derive(Clone) on the handle: a copy of the wrapped reference. -/
def GpuComputePipeline.clone (h : GpuComputePipeline) : GpuComputePipeline :=
  ⟨h.jsRef⟩

/-- derive(PartialEq, Eq) on the handle: equality of the wrapped JS object
reference. -/
def gpuHandleEq (a b : GpuComputePipeline) : Bool :=
  a.jsRef == b.jsRef

/-- A plain JS object reference, the target of the extends clause. -/
structure JsObject where
  jsRef : Nat
deriving Repr

/-- The upcast of the handle to a JS object, available because the type
declaration extends ::js_sys::Object: it is total, returns the same
wrapped reference and cannot fail. -/
def GpuComputePipeline.asObject (h : GpuComputePipeline) : JsObject :=
  ⟨h.jsRef⟩

/-- Claim C1: each of the 17 DEFINE_GUID constants declared in
d2d1effects_2.rs equals, bit-for-bit, the platform's registered 128-bit
CLSID for the named effect class; in particular CLSID_D2D1Contrast parses
from B648A78A-0ED5-4F80-A94A-8E825ACA6B77 and CLSID_D2D1LookupTable3D from
349E0EDA-0088-4A79-9CA3-C7E300202020. -/
theorem d2d1_clsids_match_platform_registry :
    platformRegistry.all registryRowMatches = true ∧
    platformRegistry.length = 17 ∧ d2d1Table.length = 17 ∧
    parseGuidText "B648A78A-0ED5-4F80-A94A-8E825ACA6B77" =
      some CLSID_D2D1Contrast ∧
    parseGuidText "349E0EDA-0088-4A79-9CA3-C7E300202020" =
      some CLSID_D2D1LookupTable3D := by
  decide

/-- Claim C3: the 17 GUID constants declared in d2d1effects_2.rs are
pairwise distinct as 128-bit values: any two distinct constants of the
table differ somewhere in their 128-bit value, hence in at least one
bit. -/
theorem d2d1_clsids_pairwise_distinct :
    (d2d1Table.map (fun p => guidVal p.2)).Pairwise (fun a b => a ≠ b) := by
  decide

/-- Claim C9: every literal in every DEFINE_GUID invocation fits its target
field width: in each of the 17 constants the first field fits in 32 bits,
the second and third fit in 16 bits, and each of the remaining eight bytes
fits in 8 bits, so each constant is a well-formed (u32, u16, u16, [u8; 8])
GUID structure. -/
theorem d2d1_guid_literals_fit_field_widths :
    d2d1Table.all (fun p => wellFormedGUID p.2) = true := by
  decide

/-- Claim C2: the GpuComputePipeline binding exposes exactly one external
handle type, with one textual attribute label exposed as a getter returning
String and a setter taking a string slice, and exactly one method
get_bind_group_layout taking the handle plus a 32-bit unsigned index and
returning a GpuBindGroupLayout handle of a different external type. -/
theorem gpu_compute_pipeline_surface_shape :
    (gpuComputePipelineDecls.filter
      (fun d => d.kind == DeclKind.typeDecl)).map (fun d => d.name) =
      ["GpuComputePipeline"] ∧
    gpuComputePipelineDecls.filter (fun d => d.kind == DeclKind.getter) =
      [labelGetterDecl] ∧
    labelGetterDecl.jsName = "label" ∧
    labelGetterDecl.args = [RustTy.refHandle "GpuComputePipeline"] ∧
    labelGetterDecl.ret = RustTy.rustString ∧
    gpuComputePipelineDecls.filter (fun d => d.kind == DeclKind.setter) =
      [setLabelDecl] ∧
    setLabelDecl.jsName = "label" ∧
    setLabelDecl.args =
      [RustTy.refHandle "GpuComputePipeline", RustTy.strRef] ∧
    setLabelDecl.ret = RustTy.unit ∧
    gpuComputePipelineDecls.filter (fun d => d.kind == DeclKind.method) =
      [getBindGroupLayoutDecl] ∧
    getBindGroupLayoutDecl.args =
      [RustTy.refHandle "GpuComputePipeline", RustTy.u32] ∧
    getBindGroupLayoutDecl.ret = RustTy.handle "GpuBindGroupLayout" ∧
    getBindGroupLayoutDecl.ret ≠
      RustTy.handle gpuComputePipelineTypeDecl.name := by
  decide

/-- Claim C4: every declaration of the GpuComputePipeline surface carries
the web_sys_unstable_apis gate, get_bind_group_layout is additionally
gated by the GpuBindGroupLayout crate feature, and no declaration of the
file is available without its stated gates: with the unstable cfg off
nothing is available regardless of features, and with it on the method is
available exactly when its feature is activated. -/
theorem gpu_compute_pipeline_gating :
    gpuComputePipelineDecls.all (fun d => d.cfgUnstableApis) = true ∧
    getBindGroupLayoutDecl.cfgFeatures = ["GpuBindGroupLayout"] ∧
    labelGetterDecl.cfgFeatures = [] ∧ setLabelDecl.cfgFeatures = [] ∧
    gpuComputePipelineTypeDecl.cfgFeatures = [] ∧
    (∀ fs : List String,
      gpuComputePipelineDecls.all
        (fun d => !(availableUnder false fs d)) = true) ∧
    (∀ fs : List String,
      availableUnder true fs getBindGroupLayoutDecl =
        fs.contains "GpuBindGroupLayout") := by
  refine ⟨by decide, by decide, by decide, by decide, by decide, ?_, ?_⟩
  · intro fs
    simp [gpuComputePipelineDecls, availableUnder,
      gpuComputePipelineTypeDecl, labelGetterDecl, setLabelDecl,
      getBindGroupLayoutDecl]
  · intro fs
    simp [availableUnder, getBindGroupLayoutDecl]

/-- Claim C5: the declaration layer performs no validation and raises no
errors of its own: no declared signature wraps its result or an argument
in Option or Result, and for every u32 index value (and every label
string) the call is a total pass-through to the external engine. -/
theorem gpu_compute_pipeline_no_local_validation :
    gpuComputePipelineDecls.all (fun d => !(fallibleTy d.ret)) = true ∧
    gpuComputePipelineDecls.all
      (fun d => d.args.all (fun a => !(fallibleTy a))) = true ∧
    (∀ (engine : String → List Nat → Nat) (this index : Nat),
      index < 2 ^ 32 →
      callBinding engine getBindGroupLayoutDecl [this, index] =
        engine "getBindGroupLayout" [this, index]) ∧
    (∀ (engine : String → List Nat → Nat) (this v : Nat),
      callBinding engine setLabelDecl [this, v] =
        engine "label" [this, v]) ∧
    (∀ (engine : String → List Nat → Nat) (this : Nat),
      callBinding engine labelGetterDecl [this] = engine "label" [this]) := by
  refine ⟨by decide, by decide, ?_, ?_, ?_⟩ <;> intros <;> rfl

/-- Concrete instance of the pass-through fact for claim C5, at index 7 of
a concrete engine. -/
theorem gpu_compute_pipeline_no_local_validation_witness :
    (7 : Nat) < 2 ^ 32 ∧
    callBinding (fun _ args => bytesVal args) getBindGroupLayoutDecl
        [3, 7] =
      (fun _ args => bytesVal args : String → List Nat → Nat)
        "getBindGroupLayout" [3, 7] :=
  ⟨by decide,
   gpu_compute_pipeline_no_local_validation.2.2.1
     (fun _ args => bytesVal args) 3 7 (by decide)⟩

/-- Claim C6: evaluating any declaration mutates no state and has no
observable side effect: a read of any constant in any state leaves the
state exactly as it was, two uses at different states yield identical
values and identical bytes, and the bytes are the fixed compile-time ones
(shown concretely for CLSID_D2D1Contrast). -/
theorem declarations_are_effect_free :
    (∀ (σ : Type) (s t : σ) (n : String),
      (readCLSID s n).2 = s ∧
      (readCLSID s n).1 = (readCLSID t n).1 ∧
      (readCLSID s n).1.map guidBytes = (readCLSID t n).1.map guidBytes) ∧
    (∀ (σ : Type) (s t : σ),
      (readBindingDecls s).2 = s ∧
      (readBindingDecls s).1 = (readBindingDecls t).1) ∧
    (readCLSID () "CLSID_D2D1Contrast").1.map guidBytes =
      some [0x8a, 0xa7, 0x48, 0xb6, 0xd5, 0x0e, 0x80, 0x4f,
            0xa9, 0x4a, 0x8e, 0x82, 0x5a, 0xca, 0x6b, 0x77] :=
  ⟨fun _ s _ n => ⟨rfl, rfl, rfl⟩, fun _ _ _ => ⟨rfl, rfl⟩, by decide⟩

/-- Claim C7: the two declaration units are independent, with no data flow
between them: no symbol of either file is referenced by the other, the
GUID constants of the assembled repository are unchanged under any
variation of the web-sys file, and the binding signatures are unchanged
under any variation of the GUID file. -/
theorem declaration_units_independent :
    gpuComputePipelineDecls.all (fun d =>
      (declReferencedNames d).all (fun n => !(guidConstNames.contains n)) &&
      !(guidConstNames.contains d.name)) = true ∧
    (∀ w₁ w₂ : List ExternDecl,
      (mkRepo d2d1Table w₁).guidView = (mkRepo d2d1Table w₂).guidView) ∧
    (∀ g₁ g₂ : List (String × GUID),
      (mkRepo g₁ gpuComputePipelineDecls).bindingView =
        (mkRepo g₂ gpuComputePipelineDecls).bindingView) :=
  ⟨by decide, fun _ _ => rfl, fun _ _ => rfl⟩

/-- Claim C8: the GpuComputePipeline handle type derives PartialEq, Eq and
Clone, handle equality is an equivalence relation, and cloning any handle
yields a value equal to the original. -/
theorem gpu_handle_equality_equivalence_clone :
    ("Clone" ∈ gpuComputePipelineTypeDecl.derivesList ∧
     "PartialEq" ∈ gpuComputePipelineTypeDecl.derivesList ∧
     "Eq" ∈ gpuComputePipelineTypeDecl.derivesList) ∧
    Equivalence (fun a b : GpuComputePipeline => gpuHandleEq a b = true) ∧
    (∀ h : GpuComputePipeline, gpuHandleEq h.clone h = true) := by
  refine ⟨⟨by decide, by decide, by decide⟩, ⟨?_, ?_, ?_⟩, ?_⟩
  · intro a
    simp [gpuHandleEq]
  · intro a b hab
    simp only [gpuHandleEq, beq_iff_eq] at hab ⊢
    exact hab.symm
  · intro a b c hab hbc
    simp only [gpuHandleEq, beq_iff_eq] at hab hbc ⊢
    exact hab.trans hbc
  · intro h
    simp [gpuHandleEq, GpuComputePipeline.clone]

/-- Claim C10: GpuComputePipeline is declared to extend ::js_sys::Object,
so every handle value can be infallibly viewed as a JS Object carrying the
same reference. -/
theorem gpu_handle_upcasts_to_js_object :
    gpuComputePipelineTypeDecl.extendsJs = some "::js_sys::Object" ∧
    (∀ h : GpuComputePipeline, h.asObject.jsRef = h.jsRef) :=
  ⟨rfl, fun _ => rfl⟩

